import Mathlib

/-!
Verification of the calendso booking-webhook dispatch subsystem and of the
login page server/client logic.

Sources embedded:
  * the end-to-end webhook test (sources file part_000): the inline snapshot
    of the delivered webhook body and the redaction of dynamic fields;
  * pages/auth/login.tsx: getServerSideProps and the credentials sign-in
    submit handler;
  * the event dispatcher itself is not among the provided source files (only
    its end-to-end test is), so its contract is modelled from the spec where
    indicated.
-/

/-- A minimal JSON value type: strings, arrays, and objects with an ordered
field list, which is all the webhook wire format uses. -/
inductive Json where
  | str (s : String)
  | arr (elems : List Json)
  | obj (fields : List (String × Json))

/-- Field lookup in a JSON object; none on non-objects and missing keys. -/
def Json.lookup (j : Json) (k : String) : Option Json :=
  match j with
  | .obj fields => fields.lookup k
  | _ => none

/-- The ordered key list of a JSON object; empty for non-objects. -/
def Json.keys (j : Json) : List String :=
  match j with
  | .obj fields => fields.map Prod.fst
  | _ => []

/-- Modelled from the spec: a person record as it appears in the wire
payload for organizer and attendees, with name, email and timeZone. -/
structure Person where
  name : String
  email : String
  timeZone : String
deriving DecidableEq

/-- Modelled from the spec: BookingPayload is title, type (slot-duration
identifier), description, startTime, endTime (ISO-8601 timestamps, kept as
strings; lexicographic order on same-format ISO strings is chronological),
organizer and an ordered sequence of attendees. -/
structure BookingPayload where
  title : String
  type : String
  description : String
  startTime : String
  endTime : String
  organizer : Person
  attendees : List Person
deriving DecidableEq

/-- Modelled from the spec: the event kinds of the dispatcher; the excerpts
only exhibit booking-created. -/
inductive EventKind where
  | bookingCreated
deriving DecidableEq

/-- Modelled from the spec: DomainEvent is a tagged variant over event
kinds, each carrying its kind-specific payload. -/
inductive DomainEvent where
  | bookingCreated (payload : BookingPayload)
deriving DecidableEq

/-- The kind tag of a domain event. -/
def DomainEvent.kind : DomainEvent → EventKind
  | .bookingCreated _ => .bookingCreated

/-- Modelled from the spec: a Subscription has an id, a subscriberURL, an
active flag and the set of event kinds it subscribes to. -/
structure Subscription where
  id : Nat
  subscriberURL : String
  active : Bool
  eventTypes : List EventKind
deriving DecidableEq

/-- Modelled from the spec: the fixed, stable kind-to-string mapping used
as the wire-level discriminator (booking-created maps to BOOKING_CREATED). -/
def kindString : EventKind → String
  | .bookingCreated => "BOOKING_CREATED"

/-- JSON encoding of a person as on the wire. -/
def personJson (p : Person) : Json :=
  .obj [("name", .str p.name), ("email", .str p.email), ("timeZone", .str p.timeZone)]

/-- Modelled from the spec: the kind-specific JSON payload for a booking,
with type, title, description, startTime, endTime, organizer and the
attendees array. -/
def bookingPayloadJson (p : BookingPayload) : Json :=
  .obj [("type", .str p.type),
        ("title", .str p.title),
        ("description", .str p.description),
        ("startTime", .str p.startTime),
        ("endTime", .str p.endTime),
        ("organizer", personJson p.organizer),
        ("attendees", .arr (p.attendees.map personJson))]

/-- The kind-specific payload of a domain event. -/
def eventPayloadJson : DomainEvent → Json
  | .bookingCreated p => bookingPayloadJson p

/-- Modelled from the spec: the canonical JSON body built at dispatch time,
with triggerEvent, createdAt (ISO-8601 at dispatch time) and payload. -/
def eventBody (dispatchTime : String) (e : DomainEvent) : Json :=
  .obj [("triggerEvent", .str (kindString e.kind)),
        ("createdAt", .str dispatchTime),
        ("payload", eventPayloadJson e)]

/-- A subscription matches an event when it is active and its event-type
set contains the event kind. -/
def Subscription.matchesEvent (s : Subscription) (e : DomainEvent) : Bool :=
  s.active && s.eventTypes.contains e.kind

/-- One outbound HTTP POST: target URL and JSON body. -/
structure Delivery where
  url : String
  body : Json

/-- Modelled from the spec: dispatch issues one HTTP POST per active
subscription whose event-type set contains the event kind, each with the
canonical JSON body. -/
def dispatch (dispatchTime : String) (e : DomainEvent) (subs : List Subscription) :
    List Delivery :=
  (subs.filter (fun s => s.matchesEvent e)).map
    (fun s => ⟨s.subscriberURL, eventBody dispatchTime e⟩)

/-- Modelled from the spec: the outcome of one delivery attempt; failures
are network failure, a non-2xx response, or timing out. -/
inductive DeliveryOutcome where
  | success
  | networkFailure
  | nonSuccessStatus (status : Nat)
  | timedOut
deriving DecidableEq

/-- Whether an outcome counts as a failed delivery. -/
def DeliveryOutcome.isFailure : DeliveryOutcome → Bool
  | .success => false
  | _ => true

/-- Modelled from the spec: a DeliveryAttempt records the subscription, the
body sent, the dispatch-time timestamp and the outcome. -/
structure DeliveryAttempt where
  subscription : Subscription
  body : Json
  createdAt : String
  outcome : DeliveryOutcome

/-- Modelled from the spec: dispatch with outcomes recorded. Each matching
active subscription gets exactly one attempt; the outcome of each attempt is
whatever the subscriber endpoint answers (given here as a function from
subscription to outcome) and has no influence on the other attempts. -/
def dispatchAttempts (dispatchTime : String) (e : DomainEvent)
    (subs : List Subscription) (respond : Subscription → DeliveryOutcome) :
    List DeliveryAttempt :=
  (subs.filter (fun s => s.matchesEvent e)).map
    (fun s => ⟨s, eventBody dispatchTime e, dispatchTime, respond s⟩)

/-- Modelled from the spec: the event producer creates the booking and
hands the event to the dispatcher; delivery outcomes are never raised back,
so the produced booking is returned unconditionally next to the attempts. -/
def createBookingAndDispatch (dispatchTime : String) (p : BookingPayload)
    (subs : List Subscription) (respond : Subscription → DeliveryOutcome) :
    BookingPayload × List DeliveryAttempt :=
  (p, dispatchAttempts dispatchTime (.bookingCreated p) subs respond)

/-- The inline snapshot of the delivered webhook body asserted by the
end-to-end test, after the test replaces the dynamic fields (createdAt,
startTime, endTime and the time zones) with the marker string. Field order
follows the snapshot as printed in the test. -/
def snapshotBody : Json :=
  .obj [
    ("createdAt", .str "[redacted/dynamic]"),
    ("payload", .obj [
      ("attendees", .arr [
        .obj [("email", .str "test@example.com"),
              ("name", .str "Test Testson"),
              ("timeZone", .str "[redacted/dynamic]")]]),
      ("description", .str ""),
      ("endTime", .str "[redacted/dynamic]"),
      ("organizer", .obj [("email", .str "pro@example.com"),
                          ("name", .str "Pro Example"),
                          ("timeZone", .str "[redacted/dynamic]")]),
      ("startTime", .str "[redacted/dynamic]"),
      ("title", .str "30min with Test Testson"),
      ("type", .str "30min")]),
    ("triggerEvent", .str "BOOKING_CREATED")]

/-- Decoder for a person object on the wire (inverse of personJson). -/
def decodePerson (j : Json) : Option Person :=
  match j.lookup "name", j.lookup "email", j.lookup "timeZone" with
  | some (.str n), some (.str e), some (.str tz) => some ⟨n, e, tz⟩
  | _, _, _ => none

/-- Decoder for a list of person objects; fails if any entry fails. -/
def decodePersons : List Json → Option (List Person)
  | [] => some []
  | j :: js =>
    match decodePerson j, decodePersons js with
    | some p, some ps => some (p :: ps)
    | _, _ => none

/-- Decoder for the kind-specific booking payload (inverse of
bookingPayloadJson). -/
def decodeBookingPayload (j : Json) : Option BookingPayload :=
  match j.lookup "type", j.lookup "title", j.lookup "description",
        j.lookup "startTime", j.lookup "endTime",
        j.lookup "organizer", j.lookup "attendees" with
  | some (.str ty), some (.str ti), some (.str de), some (.str st),
      some (.str en), some oj, some (.arr aj) =>
    match decodePerson oj, decodePersons aj with
    | some org, some atts => some ⟨ti, ty, de, st, en, org, atts⟩
    | _, _ => none
  | _, _, _, _, _, _, _ => none

/-- Decoder for a full delivered body: yields the dispatch-time createdAt
string and the reconstructed domain event (inverse of eventBody). -/
def decodeDeliveredBody (j : Json) : Option (String × DomainEvent) :=
  match j.lookup "triggerEvent", j.lookup "createdAt", j.lookup "payload" with
  | some (.str tev), some (.str created), some pj =>
    if tev = "BOOKING_CREATED" then
      (decodeBookingPayload pj).map (fun p => (created, .bookingCreated p))
    else none
  | _, _, _ => none

/-- Modelled from the spec: the data-model invariant on a booking payload,
startTime strictly before endTime and at least one attendee. -/
def BookingPayload.valid (p : BookingPayload) : Prop :=
  p.startTime < p.endTime ∧ p.attendees ≠ []

instance (p : BookingPayload) : Decidable p.valid := by
  unfold BookingPayload.valid; infer_instance

/-! Login page (pages/auth/login.tsx). -/

/-- The props object returned by getServerSideProps when no session
exists, mirroring the props literal in login.tsx: csrfToken (from
getCsrfToken, possibly absent), trpcState (the dehydrated ssr state, kept
abstract as a string), and the login-configuration flags. -/
structure LoginServerProps where
  csrfToken : Option String
  trpcState : String
  isGoogleLoginEnabled : Bool
  isSAMLLoginEnabled : Bool
  hostedCal : Bool
  samlTenantID : String
  samlProductID : String
deriving DecidableEq

/-- Result of getServerSideProps: either a redirect with destination and
permanent flag, or page props. -/
inductive ServerSideResult where
  | redirect (destination : String) (permanent : Bool)
  | props (p : LoginServerProps)
deriving DecidableEq

/-- The inputs getServerSideProps reads: the session resolved from the
request by getSession (some when a user is authenticated), the CSRF token
from getCsrfToken, the dehydrated ssr state, and the configuration values
imported by login.tsx. -/
structure ServerContext where
  session : Option String
  csrf : Option String
  dehydratedState : String
  googleLoginEnabled : Bool
  samlLoginEnabled : Bool
  hostedCalFlag : Bool
  samlTenantIDValue : String
  samlProductIDValue : String
deriving DecidableEq

/-- getServerSideProps of login.tsx: with a session, a non-permanent
redirect to the root path and no props; otherwise the props object with the
CSRF token, the dehydrated state and the configuration flags. -/
def getServerSideProps (ctx : ServerContext) : ServerSideResult :=
  match ctx.session with
  | some _ => .redirect "/" false
  | none => .props ⟨ctx.csrf, ctx.dehydratedState, ctx.googleLoginEnabled,
      ctx.samlLoginEnabled, ctx.hostedCalFlag, ctx.samlTenantIDValue,
      ctx.samlProductIDValue⟩

/-- ErrorCode.IncorrectPassword imported from the auth library (its string
value is not in the excerpt; the six codes are modelled as distinct string
literals). -/
def ErrorCode.IncorrectPassword : String := "incorrect-password"

/-- ErrorCode.UserNotFound from the auth library. -/
def ErrorCode.UserNotFound : String := "user-not-found"

/-- ErrorCode.IncorrectTwoFactorCode from the auth library. -/
def ErrorCode.IncorrectTwoFactorCode : String := "incorrect-two-factor-code"

/-- ErrorCode.InternalServerError from the auth library. -/
def ErrorCode.InternalServerError : String := "internal-server-error"

/-- ErrorCode.ThirdPartyIdentityProviderEnabled from the auth library. -/
def ErrorCode.ThirdPartyIdentityProviderEnabled : String :=
  "third-party-identity-provider-enabled"

/-- ErrorCode.SecondFactorRequired from the auth library. -/
def ErrorCode.SecondFactorRequired : String := "second-factor-required"

/-- The i18n translation function t, modelled as the identity on message
keys (login.tsx only ever composes its results into message strings). -/
def tr (key : String) : String := key

/-- The errorMessages map of login.tsx. SecondFactorRequired is commented
out in the source and therefore absent; every other known code maps to its
composed message string. Unknown codes are absent (JS indexing yields
undefined). -/
def errorMessages (code : String) : Option String :=
  if code = ErrorCode.IncorrectPassword then
    some (tr "incorrect_password" ++ " " ++ tr "please_try_again")
  else if code = ErrorCode.UserNotFound then
    some (tr "no_account_exists")
  else if code = ErrorCode.IncorrectTwoFactorCode then
    some (tr "incorrect_2fa_code" ++ " " ++ tr "please_try_again")
  else if code = ErrorCode.InternalServerError then
    some (tr "something_went_wrong" ++ " " ++ tr "please_try_again_and_contact_us")
  else if code = ErrorCode.ThirdPartyIdentityProviderEnabled then
    some (tr "account_created_with_identity_provider")
  else none

/-- A Next.js query parameter value: string or array of strings. -/
inductive QueryParam where
  | str (s : String)
  | strs (ss : List String)
deriving DecidableEq

/-- The callbackUrl computation of login.tsx: the query parameter when it
is a string, the root path otherwise (absent or an array). -/
def callbackUrlOf (q : Option QueryParam) : String :=
  match q with
  | some (.str s) => s
  | _ => "/"

/-- The response object signIn resolves with: its error field is a string
or absent. -/
structure SignInResponse where
  error : Option String
deriving DecidableEq

/-- The promise returned by signIn as observed by the submit handler:
either rejected, or resolved with a possibly-null response. -/
inductive SignInPromise where
  | rejected
  | resolved (res : Option SignInResponse)
deriving DecidableEq

/-- The observable effect the submit handler performs on the page state. -/
inductive LoginEffect where
  | setErrorMessage (msg : String)
  | replaceLocation (url : String)
  | setTwoFactorRequired
deriving DecidableEq

/-- JavaScript falsiness of the optional error string: absent (undefined or
null) and the empty string are falsy. -/
def jsFalsy (o : Option String) : Bool :=
  match o with
  | none => true
  | some s => s == ""

/-- JavaScript or-else on an optional string: the fallback is used when the
left side is absent or falsy. -/
def jsOr (a : Option String) (b : String) : String :=
  match a with
  | some s => if s == "" then b else s
  | none => b

/-- The message set for a null result or a rejected promise, which is
errorMessages at ErrorCode.InternalServerError. -/
def internalServerErrorMessage : String :=
  tr "something_went_wrong" ++ " " ++ tr "please_try_again_and_contact_us"

/-- The credentials submit handler of login.tsx (lines 128-139): a null
result or a rejected promise sets the InternalServerError message; a result
whose error field is falsy replaces the location with callbackUrl; the
SecondFactorRequired error reveals the two-factor input; any other error
sets its mapped message, or the generic something_went_wrong fallback. -/
def handleSignInResult (callbackUrl : String) : SignInPromise → LoginEffect
  | .rejected => .setErrorMessage internalServerErrorMessage
  | .resolved none => .setErrorMessage internalServerErrorMessage
  | .resolved (some res) =>
    if jsFalsy res.error then .replaceLocation callbackUrl
    else if res.error == some ErrorCode.SecondFactorRequired then
      .setTwoFactorRequired
    else .setErrorMessage (jsOr (res.error.bind errorMessages) (tr "something_went_wrong"))

/-- Length of a JSON array, none on non-arrays. -/
def Json.arrLen (j : Json) : Option Nat :=
  match j with
  | .arr xs => some xs.length
  | _ => none

/-! Helper lemmas. -/

lemma decodePerson_personJson (p : Person) : decodePerson (personJson p) = some p := rfl

lemma decodePersons_map (ps : List Person) :
    decodePersons (ps.map personJson) = some ps := by
  induction ps with
  | nil => rfl
  | cons p ps ih => simp [decodePersons, decodePerson_personJson, ih]

lemma decodeBookingPayload_roundtrip (p : BookingPayload) :
    decodeBookingPayload (bookingPayloadJson p) = some p := by
  simp [decodeBookingPayload, bookingPayloadJson, Json.lookup, List.lookup,
    decodePerson_personJson, decodePersons_map]

lemma decodeDeliveredBody_eventBody (t : String) (e : DomainEvent) :
    decodeDeliveredBody (eventBody t e) = some (t, e) := by
  cases e with
  | bookingCreated p =>
    simp [decodeDeliveredBody, eventBody, eventPayloadJson, DomainEvent.kind,
      kindString, Json.lookup, List.lookup, decodeBookingPayload_roundtrip]

lemma mem_dispatch {t : String} {e : DomainEvent} {subs : List Subscription}
    {d : Delivery} (hd : d ∈ dispatch t e subs) :
    d.body = eventBody t e ∧
    ∃ s ∈ subs, s.matchesEvent e = true ∧ d.url = s.subscriberURL := by
  simp only [dispatch, List.mem_map, List.mem_filter] at hd
  obtain ⟨s, ⟨hs, hmatch⟩, rfl⟩ := hd
  exact ⟨rfl, s, hs, hmatch, rfl⟩

lemma mem_dispatchAttempts {t : String} {e : DomainEvent}
    {subs : List Subscription} {respond : Subscription → DeliveryOutcome}
    {a : DeliveryAttempt} (ha : a ∈ dispatchAttempts t e subs respond) :
    a.subscription ∈ subs ∧ a.subscription.matchesEvent e = true ∧
    a.body = eventBody t e ∧ a.createdAt = t ∧
    a.outcome = respond a.subscription := by
  simp only [dispatchAttempts, List.mem_map, List.mem_filter] at ha
  obtain ⟨s, ⟨hs, hmatch⟩, rfl⟩ := ha
  exact ⟨hs, hmatch, rfl, rfl, rfl⟩

/-! Concrete sample data for witnesses. -/

/-- A sample booking payload matching the end-to-end scenario, with fixed
timestamps and time zones. -/
def samplePayload : BookingPayload :=
  ⟨"30min with Test Testson", "30min", "",
   "2022-06-01T10:00:00Z", "2022-06-01T10:30:00Z",
   ⟨"Pro Example", "pro@example.com", "Europe/London"⟩,
   [⟨"Test Testson", "test@example.com", "Europe/London"⟩]⟩

/-- A sample active subscription to booking-created events. -/
def sampleSubA : Subscription := ⟨1, "http://localhost:49152/", true, [.bookingCreated]⟩

/-- A second sample active subscription at a different URL. -/
def sampleSubB : Subscription := ⟨2, "http://localhost:49153/", true, [.bookingCreated]⟩

/-- A deactivated sample subscription. -/
def sampleSubInactive : Subscription := ⟨3, "http://localhost:49154/", false, [.bookingCreated]⟩

/-- A sample subscriber behaviour: the second subscription answers with a
500 status, everyone else succeeds. -/
def sampleRespond : Subscription → DeliveryOutcome :=
  fun s => if s.id = 2 then .nonSuccessStatus 500 else .success

lemma dispatch_countP (t : String) (e : DomainEvent) (u : String)
    (subs : List Subscription) :
    (dispatch t e subs).countP (fun d => d.url == u) =
    subs.countP (fun s => s.matchesEvent e && (s.subscriberURL == u)) := by
  induction subs with
  | nil => rfl
  | cons s ss ih =>
    simp only [dispatch, List.filter_cons] at ih ⊢
    by_cases h : s.matchesEvent e = true
    · simp [h, List.countP_cons, ih]
    · simp [h, List.countP_cons, ih]

/-! Claim theorems. -/

/-- C2: in the booking scenario of the end-to-end test (attendee Test
Testson, test@example.com, booking the 30-minute slot of pro@example.com),
the delivered webhook body has triggerEvent BOOKING_CREATED, payload title
30min with Test Testson, payload type 30min, exactly one attendee entry and
an empty description. -/
theorem snapshot_scenario_fields :
    snapshotBody.lookup "triggerEvent" = some (.str "BOOKING_CREATED")
  ∧ ((snapshotBody.lookup "payload").bind (fun j => j.lookup "title"))
      = some (.str "30min with Test Testson")
  ∧ ((snapshotBody.lookup "payload").bind (fun j => j.lookup "type"))
      = some (.str "30min")
  ∧ (((snapshotBody.lookup "payload").bind (fun j => j.lookup "attendees")).bind
      Json.arrLen) = some 1
  ∧ ((snapshotBody.lookup "payload").bind (fun j => j.lookup "description"))
      = some (.str "") :=
  ⟨rfl, rfl, rfl, rfl, rfl⟩

/-- C3: for every dispatch time and booking payload, the canonical body has
exactly the top-level keys triggerEvent, createdAt and payload, with the
fixed kind string, the dispatch-time createdAt and the kind-specific
payload; the booking payload carries type, title, description, startTime,
endTime, organizer (name, email, timeZone) and the ordered attendees array;
and the key set agrees with the snapshot asserted by the end-to-end test. -/
theorem eventBody_canonical_shape (t : String) (p : BookingPayload) :
    (eventBody t (.bookingCreated p)).keys = ["triggerEvent", "createdAt", "payload"]
  ∧ (eventBody t (.bookingCreated p)).lookup "triggerEvent" = some (.str "BOOKING_CREATED")
  ∧ (eventBody t (.bookingCreated p)).lookup "createdAt" = some (.str t)
  ∧ (eventBody t (.bookingCreated p)).lookup "payload" = some (bookingPayloadJson p)
  ∧ (bookingPayloadJson p).keys
      = ["type", "title", "description", "startTime", "endTime", "organizer", "attendees"]
  ∧ (bookingPayloadJson p).lookup "organizer" = some (personJson p.organizer)
  ∧ (bookingPayloadJson p).lookup "attendees" = some (.arr (p.attendees.map personJson))
  ∧ (personJson p.organizer).keys = ["name", "email", "timeZone"]
  ∧ snapshotBody.keys.Perm (eventBody t (.bookingCreated p)).keys :=
  ⟨rfl, rfl, rfl, rfl, rfl, rfl, rfl, rfl, by
    have h : (eventBody t (.bookingCreated p)).keys = ["triggerEvent", "createdAt", "payload"] := rfl
    rw [h]; decide⟩

/-- C6: the top-level createdAt of every built body is the dispatch-time
timestamp, the same for any two events dispatched at the same time (hence
independent of when the underlying booking was created), and every body
delivered by dispatch carries it. -/
theorem createdAt_is_dispatch_time (t : String) (e e2 : DomainEvent) :
    (eventBody t e).lookup "createdAt" = some (.str t)
  ∧ (eventBody t e).lookup "createdAt" = (eventBody t e2).lookup "createdAt"
  ∧ (∀ subs : List Subscription, ∀ d ∈ dispatch t e subs,
      d.body.lookup "createdAt" = some (.str t)) := by
  refine ⟨rfl, rfl, ?_⟩
  intro subs d hd
  rw [(mem_dispatch hd).1]
  rfl

/-- Witness for C6 at a concrete dispatch: the single delivery to the
sample subscription carries the dispatch-time createdAt. -/
theorem createdAt_is_dispatch_time_witness :
    (Delivery.mk "u" (eventBody "2022-06-01T09:00:00Z"
        (.bookingCreated ⟨"t", "30min", "", "a", "b", ⟨"o", "oe", "tz"⟩,
          [⟨"n", "ne", "tz"⟩]⟩))).body.lookup "createdAt"
      = some (.str "2022-06-01T09:00:00Z") := by
  refine (createdAt_is_dispatch_time "2022-06-01T09:00:00Z"
      (.bookingCreated ⟨"t", "30min", "", "a", "b", ⟨"o", "oe", "tz"⟩, [⟨"n", "ne", "tz"⟩]⟩)
      (.bookingCreated ⟨"t", "30min", "", "a", "b", ⟨"o", "oe", "tz"⟩, [⟨"n", "ne", "tz"⟩]⟩)).2.2
    [⟨1, "u", true, [.bookingCreated]⟩] _ ?_
  exact List.Mem.head _

/-- C1: a subscription that occurs once in the subscription list, is
active, has the event kind in its event-type set and is the only
subscription with its URL receives exactly one POST from the dispatch of
the event: no zero deliveries, no duplicates. -/
theorem dispatch_exactly_one_post (t : String) (e : DomainEvent)
    (subs : List Subscription) (s : Subscription)
    (hcount : subs.count s = 1)
    (hactive : s.active = true)
    (hkind : s.eventTypes.contains e.kind = true)
    (huniq : ∀ s2 ∈ subs, s2.subscriberURL = s.subscriberURL → s2 = s) :
    ((dispatch t e subs).filter (fun d => d.url == s.subscriberURL)).length = 1 := by
  have hmatch : s.matchesEvent e = true := by
    simp only [Subscription.matchesEvent, hactive, Bool.true_and]
    exact hkind
  rw [← List.countP_eq_length_filter, dispatch_countP]
  have hcongr : ∀ a ∈ subs,
      ((a.matchesEvent e && (a.subscriberURL == s.subscriberURL)) = true)
        ↔ ((a == s) = true) := by
    intro a ha
    constructor
    · intro hp
      simp only [Bool.and_eq_true, beq_iff_eq] at hp
      have := huniq a ha hp.2
      simp [this]
    · intro hq
      have : a = s := by simpa using hq
      subst this
      simp [hmatch]
  rw [List.countP_congr hcongr, ← List.count_eq_countP]
  exact hcount

/-- Witness for C1: dispatching the sample event to the two sample
subscriptions delivers exactly one POST to the first URL. -/
theorem dispatch_exactly_one_post_witness :
    ((dispatch "T" (.bookingCreated samplePayload) [sampleSubA, sampleSubB]).filter
      (fun d => d.url == sampleSubA.subscriberURL)).length = 1 := by
  refine dispatch_exactly_one_post "T" (.bookingCreated samplePayload)
    [sampleSubA, sampleSubB] sampleSubA (by decide) (by decide) (by decide) ?_
  intro s2 hs2 hurl
  rcases hs2 with _ | ⟨_, hs2⟩
  · rfl
  · rcases hs2 with _ | ⟨_, hs2⟩
    · exact absurd hurl (by decide)
    · cases hs2

/-- C4: the set of subscriptions attempted is the same whatever outcomes
the subscriber endpoints produce (one failing subscriber never blocks the
others), every failing attempt is recorded as a failed DeliveryAttempt with
its outcome, and the event producer gets its booking back unconditionally
(booking creation succeeds regardless of delivery outcomes). -/
theorem dispatch_failure_isolated (t : String) (e : DomainEvent)
    (subs : List Subscription)
    (respond respond2 : Subscription → DeliveryOutcome) (p : BookingPayload) :
    ((dispatchAttempts t e subs respond).map (fun a => a.subscription)
      = (dispatchAttempts t e subs respond2).map (fun a => a.subscription))
  ∧ (∀ a ∈ dispatchAttempts t e subs respond,
      a.outcome = respond a.subscription
      ∧ ((respond a.subscription).isFailure = true → a.outcome.isFailure = true))
  ∧ ((createBookingAndDispatch t p subs respond).1 = p)
  ∧ ((createBookingAndDispatch t p subs respond).1
      = (createBookingAndDispatch t p subs respond2).1) := by
  refine ⟨?_, ?_, rfl, rfl⟩
  · simp [dispatchAttempts, List.map_map, Function.comp]
  · intro a ha
    have h := mem_dispatchAttempts ha
    exact ⟨h.2.2.2.2, fun hf => h.2.2.2.2 ▸ hf⟩

/-- Witness for C4: with one healthy subscriber and one answering 500, the
attempted subscriptions are independent of the outcomes, the failing
attempt is recorded as a non-2xx failure, and the producer keeps its
booking. -/
theorem dispatch_failure_isolated_witness :
    ((dispatchAttempts "T" (.bookingCreated samplePayload) [sampleSubA, sampleSubB]
        sampleRespond).map (fun a => a.subscription)
      = (dispatchAttempts "T" (.bookingCreated samplePayload) [sampleSubA, sampleSubB]
        (fun _ => .success)).map (fun a => a.subscription))
  ∧ (DeliveryAttempt.mk sampleSubB
        (eventBody "T" (.bookingCreated samplePayload)) "T"
        (.nonSuccessStatus 500)).outcome
      = sampleRespond sampleSubB
  ∧ ((createBookingAndDispatch "T" samplePayload [sampleSubA, sampleSubB]
        sampleRespond).1 = samplePayload) := by
  have h := dispatch_failure_isolated "T" (.bookingCreated samplePayload)
    [sampleSubA, sampleSubB] sampleRespond (fun _ => .success) samplePayload
  refine ⟨h.1, ?_, h.2.2.1⟩
  refine (h.2.1 _ ?_).1
  simp [dispatchAttempts, Subscription.matchesEvent, sampleSubA, sampleSubB,
    DomainEvent.kind, sampleRespond, List.filter]

/-- C5: every body delivered by dispatch decodes back to the dispatch-time
timestamp and the originating event, so organizer, attendee and time fields
round-trip through serialization. -/
theorem delivered_body_roundtrip (t : String) (e : DomainEvent)
    (subs : List Subscription) (d : Delivery) (hd : d ∈ dispatch t e subs) :
    decodeDeliveredBody d.body = some (t, e) := by
  rw [(mem_dispatch hd).1]
  exact decodeDeliveredBody_eventBody t e

/-- Witness for C5 at a concrete delivery: the body posted to the sample
subscription decodes back to the sample booking event. -/
theorem delivered_body_roundtrip_witness :
    decodeDeliveredBody (Delivery.mk sampleSubA.subscriberURL
        (eventBody "T" (.bookingCreated samplePayload))).body
      = some ("T", .bookingCreated samplePayload) :=
  delivered_body_roundtrip "T" (.bookingCreated samplePayload) [sampleSubA] _
    (List.Mem.head _)

/-- C7: a subscription whose active flag is false before dispatch receives
zero deliveries: no delivery attempt of the dispatch belongs to it. -/
theorem inactive_subscription_zero_deliveries (t : String) (e : DomainEvent)
    (subs : List Subscription) (respond : Subscription → DeliveryOutcome)
    (s : Subscription) (hinactive : s.active = false) :
    (∀ a ∈ dispatchAttempts t e subs respond, a.subscription ≠ s)
  ∧ (dispatchAttempts t e subs respond).countP (fun a => a.subscription == s) = 0 := by
  have hne : ∀ a ∈ dispatchAttempts t e subs respond, a.subscription ≠ s := by
    intro a ha heq
    have h := (mem_dispatchAttempts ha).2.1
    rw [heq] at h
    simp [Subscription.matchesEvent, hinactive] at h
  refine ⟨hne, ?_⟩
  rw [List.countP_eq_zero]
  intro a ha
  simpa using hne a ha

/-- Witness for C7: dispatching to one active and one deactivated
subscription produces no attempt for the deactivated one. -/
theorem inactive_subscription_zero_deliveries_witness :
    (dispatchAttempts "T" (.bookingCreated samplePayload)
        [sampleSubA, sampleSubInactive] sampleRespond).countP
      (fun a => a.subscription == sampleSubInactive) = 0 :=
  (inactive_subscription_zero_deliveries "T" (.bookingCreated samplePayload)
    [sampleSubA, sampleSubInactive] sampleRespond sampleSubInactive rfl).2

/-- C8: when the originating booking satisfies the data-model invariant
(startTime strictly before endTime, at least one attendee), every delivered
body carries a payload that decodes to a booking satisfying it. -/
theorem delivered_payload_invariant (t : String) (p : BookingPayload)
    (subs : List Subscription) (d : Delivery)
    (hd : d ∈ dispatch t (.bookingCreated p) subs) (hv : p.valid) :
    ∃ pj q, d.body.lookup "payload" = some pj ∧ decodeBookingPayload pj = some q
      ∧ q.startTime < q.endTime ∧ 1 ≤ q.attendees.length := by
  refine ⟨bookingPayloadJson p, p, ?_, decodeBookingPayload_roundtrip p, hv.1, ?_⟩
  · rw [(mem_dispatch hd).1]; rfl
  · have hne := hv.2
    cases hatt : p.attendees with
    | nil => exact absurd hatt hne
    | cons a l => simp [hatt]

/-- Witness for C8: the delivery of the sample booking (which satisfies
the invariant) to the sample subscription carries an invariant-satisfying
payload. -/
theorem delivered_payload_invariant_witness :
    samplePayload.valid
  ∧ ∃ pj q, (Delivery.mk sampleSubA.subscriberURL
        (eventBody "T" (.bookingCreated samplePayload))).body.lookup "payload"
      = some pj ∧ decodeBookingPayload pj = some q
      ∧ q.startTime < q.endTime ∧ 1 ≤ q.attendees.length := by
  have hv : samplePayload.valid := by
    refine ⟨?_, by decide⟩
    rw [show samplePayload.startTime = "2022-06-01T10:00:00Z" from rfl,
        show samplePayload.endTime = "2022-06-01T10:30:00Z" from rfl,
        String.lt_iff_toList_lt]
    decide
  exact ⟨hv, delivered_payload_invariant "T" samplePayload [sampleSubA] _
    (List.Mem.head _) hv⟩

/-- C9: with an existing session, getServerSideProps of the login page
returns a non-permanent redirect to the root path and no page props; with
no session it returns props carrying the CSRF token and the Google and
SAML login-enabled flags. -/
theorem login_getServerSideProps_spec (ctx : ServerContext) :
    (ctx.session.isSome = true →
      getServerSideProps ctx = .redirect "/" false
      ∧ ∀ pr, getServerSideProps ctx ≠ .props pr)
  ∧ (ctx.session = none →
      getServerSideProps ctx = .props ⟨ctx.csrf, ctx.dehydratedState,
        ctx.googleLoginEnabled, ctx.samlLoginEnabled, ctx.hostedCalFlag,
        ctx.samlTenantIDValue, ctx.samlProductIDValue⟩) := by
  constructor
  · intro h
    match hs : ctx.session with
    | some u => exact ⟨by simp [getServerSideProps, hs], by simp [getServerSideProps, hs]⟩
    | none => rw [hs] at h; cases h
  · intro h
    simp [getServerSideProps, h]

/-- Witness for C9: a request with a session is redirected, a request
without one gets the props. -/
theorem login_getServerSideProps_spec_witness :
    getServerSideProps ⟨some "user", none, "state", true, false, false, "tnt", "prd"⟩
      = .redirect "/" false
  ∧ getServerSideProps ⟨none, some "tok", "state", true, false, false, "tnt", "prd"⟩
      = .props ⟨some "tok", "state", true, false, false, "tnt", "prd"⟩ :=
  ⟨((login_getServerSideProps_spec
      ⟨some "user", none, "state", true, false, false, "tnt", "prd"⟩).1 rfl).1,
    (login_getServerSideProps_spec
      ⟨none, some "tok", "state", true, false, false, "tnt", "prd"⟩).2 rfl⟩

lemma errorMessages_ne_empty {code msg : String}
    (h : errorMessages code = some msg) : msg ≠ "" := by
  unfold errorMessages at h
  split_ifs at h <;> cases h <;> decide

/-- C10: on the login form, a null sign-in result or a rejected promise
sets the internal-server-error message; a result whose error field is
falsy redirects to callbackUrl, which is the string callbackUrl query
parameter when present and the root path otherwise; the
SecondFactorRequired error reveals the two-factor input; any other error
sets its mapped message, falling back to the generic something_went_wrong
message when the code is unmapped. -/
theorem login_handleSubmit_spec (q : Option QueryParam) :
    (handleSignInResult (callbackUrlOf q) .rejected
      = .setErrorMessage internalServerErrorMessage)
  ∧ (handleSignInResult (callbackUrlOf q) (.resolved none)
      = .setErrorMessage internalServerErrorMessage)
  ∧ (internalServerErrorMessage
      = (errorMessages ErrorCode.InternalServerError).getD "")
  ∧ (∀ res : SignInResponse, jsFalsy res.error = true →
      handleSignInResult (callbackUrlOf q) (.resolved (some res))
        = .replaceLocation (callbackUrlOf q))
  ∧ (∀ s, q = some (.str s) → callbackUrlOf q = s)
  ∧ ((∀ s, q ≠ some (.str s)) → callbackUrlOf q = "/")
  ∧ (∀ res : SignInResponse, res.error = some ErrorCode.SecondFactorRequired →
      handleSignInResult (callbackUrlOf q) (.resolved (some res))
        = .setTwoFactorRequired)
  ∧ (∀ res : SignInResponse, ∀ code msg, res.error = some code →
      jsFalsy res.error = false → code ≠ ErrorCode.SecondFactorRequired →
      errorMessages code = some msg →
      handleSignInResult (callbackUrlOf q) (.resolved (some res))
        = .setErrorMessage msg)
  ∧ (∀ res : SignInResponse, ∀ code, res.error = some code →
      jsFalsy res.error = false → code ≠ ErrorCode.SecondFactorRequired →
      errorMessages code = none →
      handleSignInResult (callbackUrlOf q) (.resolved (some res))
        = .setErrorMessage (tr "something_went_wrong")) := by
  refine ⟨rfl, rfl, rfl, ?_, ?_, ?_, ?_, ?_, ?_⟩
  · intro res hf
    simp [handleSignInResult, hf]
  · intro s hq
    simp [callbackUrlOf, hq]
  · intro hq
    rcases q with _ | qp
    · rfl
    · rcases qp with s | l
      · exact absurd rfl (hq s)
      · rfl
  · intro res herr
    have hf : jsFalsy (some ErrorCode.SecondFactorRequired) = false := by decide
    simp [handleSignInResult, herr, hf]
  · intro res code msg herr hf hcode hmsg
    rw [herr] at hf
    simp [handleSignInResult, herr, hf, hcode, jsOr, hmsg, errorMessages_ne_empty hmsg]
  · intro res code herr hf hcode hmsg
    rw [herr] at hf
    simp [handleSignInResult, herr, hf, hcode, jsOr, hmsg]

/-- Witness for C10: the five behaviours at concrete inputs, with the
callbackUrl taken from a string query parameter for the redirect case. -/
theorem login_handleSubmit_spec_witness :
    handleSignInResult (callbackUrlOf none) .rejected
      = .setErrorMessage internalServerErrorMessage
  ∧ handleSignInResult (callbackUrlOf (some (.str "/bookings")))
      (.resolved (some ⟨none⟩)) = .replaceLocation "/bookings"
  ∧ handleSignInResult (callbackUrlOf none)
      (.resolved (some ⟨some ErrorCode.SecondFactorRequired⟩))
      = .setTwoFactorRequired
  ∧ handleSignInResult (callbackUrlOf none)
      (.resolved (some ⟨some ErrorCode.UserNotFound⟩))
      = .setErrorMessage (tr "no_account_exists")
  ∧ handleSignInResult (callbackUrlOf none)
      (.resolved (some ⟨some "mystery-code"⟩))
      = .setErrorMessage (tr "something_went_wrong") := by
  refine ⟨(login_handleSubmit_spec none).1, ?_, ?_, ?_, ?_⟩
  · have h := (login_handleSubmit_spec (some (.str "/bookings"))).2.2.2.1 ⟨none⟩ rfl
    simpa using h
  · exact (login_handleSubmit_spec none).2.2.2.2.2.2.1 ⟨some ErrorCode.SecondFactorRequired⟩ rfl
  · exact (login_handleSubmit_spec none).2.2.2.2.2.2.2.1 ⟨some ErrorCode.UserNotFound⟩
      ErrorCode.UserNotFound (tr "no_account_exists") rfl (by decide) (by decide) (by decide)
  · exact (login_handleSubmit_spec none).2.2.2.2.2.2.2.2 ⟨some "mystery-code"⟩
      "mystery-code" rfl (by decide) (by decide) (by decide)


